import Mathlib

/-!
LearnOpenGl: the triangle set-up sequence of `Practice.cpp`.

`Practice.cpp` consists of one function, `main`, a straight-line sequence of
OpenGL calls with three conditional diagnostic blocks.  The embedding below
turns `main` into a program over an abstract graphics driver: every OpenGL
call becomes a `GLCall` value handed to the driver, which answers with a
`Reply`; every `std::cout` statement becomes a `print` event.  The run of
`main` is the chronological list of these events together with the driver
state each call was issued in.

Two drivers are provided.  `scripted` answers with values fixed in advance, so
that statements can range over every outcome of the status queries; every
driver behaves on `main` like a scripted one (`scripted_covers_every_driver`).
`Device.exec` is a reference device following the object model of the
specification (ambient bindings, shader and program objects), used for the
statements that speak about device state.
-/

namespace LearnOpenGl

/-! ## Values passed across the API -/

/-- Modelled from the spec: the enumerants that `main` passes are macros of
`glad/glad.h`, a header that is not part of the sources; they are kept
symbolic, one constructor per macro name used in `Practice.cpp`. -/
inductive GLenum
  | GL_ARRAY_BUFFER
  | GL_STATIC_DRAW
  | GL_VERTEX_SHADER
  | GL_FRAGMENT_SHADER
  | GL_COMPILE_STATUS
  | GL_LINK_STATUS
  | GL_FLOAT
  | GL_TRIANGLES
  deriving DecidableEq, Repr

/-- A C `float` value.  Every literal of `Practice.cpp` is a dyadic rational
and is therefore represented exactly. -/
abbrev GLfloat := ℚ

/-- The value of `sizeof(float)`: a `float` occupies four bytes. -/
def sizeofFloat : Nat := 4

/-- The array `triangleOneVerticies` (lines 10-14). -/
def triangleOneVerticies : List GLfloat :=
  [-0.5, 0.0, 0.0,
   0.5, 0.0, 0.0,
   0.0, 0.5, 0.0]

/-- The array `triangeTwoVerticies` (lines 17-21). -/
def triangeTwoVerticies : List GLfloat :=
  [-0.5, 0.0, 0.0,
   0.5, 0.0, 0.0,
   0.0, -0.5, 0.0]

/-- The value of `sizeof` applied to a `float` array. -/
def sizeofArray (a : List GLfloat) : Nat := sizeofFloat * a.length

/-- The string literal `vertexShaderSource` (lines 55-60), including the
explicit NUL the source writes before the closing quote. -/
def vertexShaderSource : String :=
  "#version 330 core\nlayout (location = 0) in vec3 aPos;\nvoid main()\n\x7b\n   gl_Position = vec4(aPos.x, aPos.y, aPos.z, 1.0);\n\x7d\x00"

/-- The string literal `fragmentShaderSource` (lines 99-104). -/
def fragmentShaderSource : String :=
  "#version 330 core\nout vec4 FragColor;\nvoid main()\n\x7b\n   FragColor = vec4(1.0f, 0.5f, 0.2f, 1.0f);\n\x7d\x00"

/-- The label written when the vertex stage reports failure (line 92). -/
def vertexLabel : String := "ERROR::SHADER::VERTEX::COMPILATION_FAILED\n"

/-- The label written when the fragment stage reports failure (line 121). -/
def fragmentLabel : String := "ERROR::SHADER::FRAGMENT::COMPILATION_FAILED\n"

/-- The label written when the program reports failure (line 151). -/
def programLabel : String := "ERROR::SHADER::PROGRAM::COMPILATION_FAILED\n"

/-- The declared size of the array `char infoLog[512]` (line 85). -/
def infoLogCapacity : Nat := 512

/-! ## Calls, replies and events -/

/-- One OpenGL call with its arguments.  Out-parameters (`&VBO`, `&success`,
`infoLog`) are not arguments here: what the call writes through them is the
`Reply`.  `glLinkProgram` is part of the vocabulary although `main` has no
such statement, so that its absence can be stated. -/
inductive GLCall
  | glGenBuffers (n : Nat)
  | glBindBuffer (target : GLenum) (buffer : Nat)
  | glBufferData (target : GLenum) (size : Nat) (data : List GLfloat) (usage : GLenum)
  | glCreateShader (kind : GLenum)
  | glShaderSource (shader : Nat) (count : Nat) (strings : List String)
  | glCompileShader (shader : Nat)
  | glGetShaderiv (shader : Nat) (pname : GLenum)
  | glGetShaderInfoLog (shader : Nat) (maxLength : Nat)
  | glCreateProgram
  | glAttachShader (program : Nat) (shader : Nat)
  | glLinkProgram (program : Nat)
  | glGetProgramiv (program : Nat) (pname : GLenum)
  | glGetProgramInfoLog (program : Nat) (maxLength : Nat)
  | glUseProgram (program : Nat)
  | glDeleteShader (shader : Nat)
  | glVertexAttribPointer (index : Nat) (size : Nat) (type : GLenum) (normalized : Bool)
      (stride : Nat) (pointer : Nat)
  | glGenVertexArrays (n : Nat)
  | glBindVertexArray (array : Nat)
  | glDrawArrays (mode : GLenum) (first : Nat) (count : Nat)
  deriving DecidableEq, Repr

/-- What the driver hands back from a call: `name` is the object name written
by a generating or creating call, `value` the integer written by a status
query, `text` the characters of the diagnostic log offered by a log retrieval
(a C string, given without its terminating NUL).  A call reads the one field
that concerns it. -/
structure Reply where
  name : Nat
  value : Int
  text : List Char
  deriving DecidableEq

/-- A graphics driver: from its current state and a call, the next state and
the reply. -/
abbrev Driver (σ : Type) := σ → GLCall → σ × Reply

/-- One observable step of `main`: a call (with the driver state it was issued
in and the reply it got) or one `std::cout` statement (with its label and the
content of `infoLog` at that moment, `none` while the array is still
uninitialised). -/
inductive Event (σ : Type)
  | call (pre : σ) (c : GLCall) (reply : Reply)
  | print (label : String) (infoLog : Option (List Char))

/-- The state threaded through `main`: the driver state and the events so
far, oldest first. -/
structure Run (σ : Type) where
  device : σ
  trace : List (Event σ)

/-- Computations of `main`. -/
abbrev Exec (σ : Type) := StateM (Run σ)

/-- Issue one call: the driver steps, the event is appended. -/
def call {σ : Type} (dev : Driver σ) (c : GLCall) : Exec σ Reply := fun r =>
  ((dev r.device c).2, ⟨(dev r.device c).1, r.trace ++ [Event.call r.device c (dev r.device c).2]⟩)

/-- The statement `std::cout << label << infoLog << std::endl`. -/
def cout {σ : Type} (label : String) (infoLog : Option (List Char)) : Exec σ Unit := fun r =>
  ((), ⟨r.device, r.trace ++ [Event.print label infoLog]⟩)

/-- What a log retrieval with buffer size `maxLength` leaves in the caller's
array: the device writes at most `maxLength` characters, the terminating NUL
included, hence at most `maxLength - 1` characters of the log the device offers. -/
def retrieved (maxLength : Nat) (log : List Char) : List Char :=
  log.take (maxLength - 1)

/-! ## The program -/

/-- The function `main` of `Practice.cpp`, statement by statement. -/
def main {σ : Type} (dev : Driver σ) : Exec σ Unit := do
  -- lines 34-48: the vertex buffer
  let VBO := (← call dev (.glGenBuffers 1)).name
  let _ ← call dev (.glBindBuffer .GL_ARRAY_BUFFER VBO)
  let _ ← call dev (.glBufferData .GL_ARRAY_BUFFER (sizeofArray triangleOneVerticies)
    triangleOneVerticies .GL_STATIC_DRAW)
  -- lines 70-93: the vertex shader
  let vertexShader := (← call dev (.glCreateShader .GL_VERTEX_SHADER)).name
  let _ ← call dev (.glShaderSource vertexShader 1 [vertexShaderSource])
  let _ ← call dev (.glCompileShader vertexShader)
  let mut infoLog : Option (List Char) := none
  let mut success : Int := (← call dev (.glGetShaderiv vertexShader .GL_COMPILE_STATUS)).value
  if success = 0 then
    infoLog := some (retrieved 512 (← call dev (.glGetShaderInfoLog vertexShader 512)).text)
    cout vertexLabel infoLog
  -- lines 109-122: the fragment shader
  let fragmentShader := (← call dev (.glCreateShader .GL_FRAGMENT_SHADER)).name
  let _ ← call dev (.glShaderSource fragmentShader 1 [fragmentShaderSource])
  let _ ← call dev (.glCompileShader fragmentShader)
  success := (← call dev (.glGetShaderiv fragmentShader .GL_COMPILE_STATUS)).value
  if success = 0 then
    infoLog := some (retrieved 512 (← call dev (.glGetShaderInfoLog fragmentShader 512)).text)
    cout fragmentLabel infoLog
  -- lines 135-160: the shader program
  let shaderProgram := (← call dev .glCreateProgram).name
  let _ ← call dev (.glAttachShader shaderProgram vertexShader)
  let _ ← call dev (.glAttachShader shaderProgram fragmentShader)
  success := (← call dev (.glGetProgramiv shaderProgram .GL_LINK_STATUS)).value
  if success = 0 then
    infoLog := some (retrieved 512 (← call dev (.glGetProgramInfoLog shaderProgram 512)).text)
    cout programLabel infoLog
  let _ ← call dev (.glUseProgram shaderProgram)
  let _ ← call dev (.glDeleteShader vertexShader)
  let _ ← call dev (.glDeleteShader fragmentShader)
  -- line 181: the layout of attribute 0
  let _ ← call dev (.glVertexAttribPointer 0 3 .GL_FLOAT false (3 * sizeofFloat) 0)
  -- lines 189-194: the vertex array object and the draw
  let VAO := (← call dev (.glGenVertexArrays 1)).name
  let _ ← call dev (.glBindVertexArray VAO)
  let _ ← call dev (.glDrawArrays .GL_TRIANGLES 0 3)

/-- The run of `main` on driver `dev` started in state `s`. -/
def runMain {σ : Type} (dev : Driver σ) (s : σ) : Run σ :=
  (main dev ⟨s, []⟩).2

/-! ## Observations on a run -/

/-- The call of an event, if it is one. -/
def Event.toCall {σ : Type} : Event σ → Option GLCall
  | .call _ c _ => some c
  | .print _ _ => none

/-- The calls of a trace, in order of issue. -/
def calls {σ : Type} (t : List (Event σ)) : List GLCall :=
  t.filterMap Event.toCall

/-- The characters an event sends to standard output: a `std::cout` statement
sends its label, the C string held in `infoLog` (nothing is shown for an array
never filled), and the newline of `std::endl`; a call sends nothing. -/
def Event.text {σ : Type} : Event σ → List Char
  | .call _ _ _ => []
  | .print label infoLog => label.toList ++ infoLog.getD [] ++ ['\n']

/-- Everything a trace writes to standard output. -/
def stdout {σ : Type} : List (Event σ) → List Char
  | [] => []
  | e :: t => e.text ++ stdout t

/-! ## A driver with answers fixed in advance -/

/-- The object names a driver hands out to `main`, one per generating or
creating call. -/
structure Names where
  VBO : Nat
  vertexShader : Nat
  fragmentShader : Nat
  shaderProgram : Nat
  VAO : Nat

/-- The outcome of the three status queries: the value each one reports and
the log the device holds for the object queried. -/
structure Outcome where
  vertexStatus : Int
  fragmentStatus : Int
  linkStatus : Int
  vertexLog : List Char
  fragmentLog : List Char
  programLog : List Char

/-- The driver answering from fixed names and a fixed outcome.  Its state
counts the shader status queries answered so far: the first is answered with
the vertex status, later ones with the fragment status, and a shader log
retrieval offers the log of the shader queried last. -/
def scripted (nm : Names) (o : Outcome) : Driver Nat
  | n, .glGenBuffers _ => (n, ⟨nm.VBO, 0, []⟩)
  | n, .glCreateShader .GL_VERTEX_SHADER => (n, ⟨nm.vertexShader, 0, []⟩)
  | n, .glCreateShader _ => (n, ⟨nm.fragmentShader, 0, []⟩)
  | n, .glCreateProgram => (n, ⟨nm.shaderProgram, 0, []⟩)
  | n, .glGenVertexArrays _ => (n, ⟨nm.VAO, 0, []⟩)
  | 0, .glGetShaderiv _ _ => (1, ⟨0, o.vertexStatus, []⟩)
  | n + 1, .glGetShaderiv _ _ => (n + 2, ⟨0, o.fragmentStatus, []⟩)
  | 0, .glGetShaderInfoLog _ _ => (0, ⟨0, 0, o.vertexLog⟩)
  | 1, .glGetShaderInfoLog _ _ => (1, ⟨0, 0, o.vertexLog⟩)
  | n + 2, .glGetShaderInfoLog _ _ => (n + 2, ⟨0, 0, o.fragmentLog⟩)
  | n, .glGetProgramiv _ _ => (n, ⟨0, o.linkStatus, []⟩)
  | n, .glGetProgramInfoLog _ _ => (n, ⟨0, 0, o.programLog⟩)
  | n, _ => (n, ⟨0, 0, []⟩)

/-- The trace of `main` on the scripted driver. -/
def scriptedTrace (nm : Names) (o : Outcome) : List (Event Nat) :=
  (runMain (scripted nm o) 0).trace

/-! ## The reference device -/

/-- The store of a buffer object: its size in bytes, its content and the
usage hint it was filled with. -/
structure BufferObject where
  size : Nat
  data : List GLfloat
  usage : GLenum
  deriving DecidableEq

/-- A shader stage object. -/
structure ShaderObject where
  kind : GLenum
  source : List String
  compiled : Bool
  infoLog : List Char
  released : Bool
  deriving DecidableEq

/-- A shader program object.  `linked` is the link status: false until a link
has succeeded. -/
structure ProgramObject where
  attached : List Nat
  linked : Bool
  infoLog : List Char
  deriving DecidableEq

/-- A vertex layout declaration together with the buffer that was bound to
the array target when it was declared. -/
structure AttribLayout where
  size : Nat
  type : GLenum
  normalized : Bool
  stride : Nat
  pointer : Nat
  buffer : Nat
  deriving DecidableEq

/-- A draw command as the device receives it: its arguments, the program
active and the vertex array object bound at that moment. -/
structure DrawRecord where
  mode : GLenum
  first : Nat
  count : Nat
  program : Nat
  vertexArray : Nat
  deriving DecidableEq

/-- The compiler and linker of the device, left open: `compile` maps a stage
kind and its source strings to a status and a log, `link` maps the attached
stage objects to a status and a log. -/
structure Toolchain where
  compile : GLenum → List String → Bool × List Char
  link : List ShaderObject → Bool × List Char

/-- Modelled from the spec: the graphics device behind the OpenGL entry points
is not part of the sources.  Its state follows sections 3 to 5 of the
specification: a counter for fresh object names, the ambient bindings (buffer
bound to the array target, active program, bound vertex array object, each 0
when nothing is bound), the objects by name, the layout declarations by vertex
array object and attribute slot, and the draw commands received. -/
structure Device where
  nextName : Nat
  arrayBuffer : Nat
  currentProgram : Nat
  vertexArray : Nat
  buffers : List (Nat × BufferObject)
  shaders : List (Nat × ShaderObject)
  programs : List (Nat × ProgramObject)
  layouts : List ((Nat × Nat) × AttribLayout)
  draws : List DrawRecord

/-- The device of a fresh context: nothing bound, no objects, names from 1. -/
def Device.fresh : Device :=
  ⟨1, 0, 0, 0, [], [], [], [], []⟩

/-- Modelled from the spec: one step of the graphics device, operation by
operation as section 4 of the specification describes them.  Generating and
creating calls hand out fresh non-zero names; `bind` sets the ambient buffer of
the target; `upload` copies `size` bytes into the buffer bound to the target
and does nothing when none is bound; `declare_layout` records the layout, with
the buffer bound to the array target, on the vertex array object bound at that
moment; `compile` and `link` store the status and log of the toolchain; a
status query reports 1 or 0; `use` makes the program the active one;
`release_stage` marks the stage; `draw` records the command with the active
program and the bound vertex array object. -/
def Device.exec (tc : Toolchain) (d : Device) : GLCall → Device × Reply
  | .glGenBuffers n => ({ d with nextName := d.nextName + n }, ⟨d.nextName, 0, []⟩)
  | .glBindBuffer target buffer =>
      (if target = .GL_ARRAY_BUFFER then { d with arrayBuffer := buffer } else d, ⟨0, 0, []⟩)
  | .glBufferData target size data usage =>
      (if target = .GL_ARRAY_BUFFER ∧ d.arrayBuffer ≠ 0 then
        { d with buffers :=
            (d.arrayBuffer, ⟨size, data.take (size / sizeofFloat), usage⟩) :: d.buffers }
       else d, ⟨0, 0, []⟩)
  | .glCreateShader kind =>
      ({ d with nextName := d.nextName + 1,
                shaders := (d.nextName, ⟨kind, [], false, [], false⟩) :: d.shaders },
       ⟨d.nextName, 0, []⟩)
  | .glShaderSource shader count strings =>
      (match d.shaders.lookup shader with
       | some o => { d with shaders := (shader, { o with source := strings.take count }) :: d.shaders }
       | none => d, ⟨0, 0, []⟩)
  | .glCompileShader shader =>
      (match d.shaders.lookup shader with
       | some o =>
           { d with shaders :=
               (shader, { o with compiled := (tc.compile o.kind o.source).1,
                                 infoLog := (tc.compile o.kind o.source).2 }) :: d.shaders }
       | none => d, ⟨0, 0, []⟩)
  | .glGetShaderiv shader pname =>
      (d, match d.shaders.lookup shader with
          | some o => ⟨0, if pname = .GL_COMPILE_STATUS ∧ o.compiled = true then 1 else 0, []⟩
          | none => ⟨0, 0, []⟩)
  | .glGetShaderInfoLog shader _ =>
      (d, match d.shaders.lookup shader with
          | some o => ⟨0, 0, o.infoLog⟩
          | none => ⟨0, 0, []⟩)
  | .glCreateProgram =>
      ({ d with nextName := d.nextName + 1,
                programs := (d.nextName, ⟨[], false, []⟩) :: d.programs },
       ⟨d.nextName, 0, []⟩)
  | .glAttachShader program shader =>
      (match d.programs.lookup program with
       | some o => { d with programs := (program, { o with attached := o.attached ++ [shader] }) :: d.programs }
       | none => d, ⟨0, 0, []⟩)
  | .glLinkProgram program =>
      (match d.programs.lookup program with
       | some o =>
           { d with programs :=
               (program, { o with linked := (tc.link (o.attached.filterMap d.shaders.lookup)).1,
                                  infoLog := (tc.link (o.attached.filterMap d.shaders.lookup)).2 })
                 :: d.programs }
       | none => d, ⟨0, 0, []⟩)
  | .glGetProgramiv program pname =>
      (d, match d.programs.lookup program with
          | some o => ⟨0, if pname = .GL_LINK_STATUS ∧ o.linked = true then 1 else 0, []⟩
          | none => ⟨0, 0, []⟩)
  | .glGetProgramInfoLog program _ =>
      (d, match d.programs.lookup program with
          | some o => ⟨0, 0, o.infoLog⟩
          | none => ⟨0, 0, []⟩)
  | .glUseProgram program => ({ d with currentProgram := program }, ⟨0, 0, []⟩)
  | .glDeleteShader shader =>
      (match d.shaders.lookup shader with
       | some o => { d with shaders := (shader, { o with released := true }) :: d.shaders }
       | none => d, ⟨0, 0, []⟩)
  | .glVertexAttribPointer index size type normalized stride pointer =>
      ({ d with layouts :=
          ((d.vertexArray, index), ⟨size, type, normalized, stride, pointer, d.arrayBuffer⟩)
            :: d.layouts }, ⟨0, 0, []⟩)
  | .glGenVertexArrays n => ({ d with nextName := d.nextName + n }, ⟨d.nextName, 0, []⟩)
  | .glBindVertexArray array => ({ d with vertexArray := array }, ⟨0, 0, []⟩)
  | .glDrawArrays mode first count =>
      ({ d with draws := d.draws ++ [⟨mode, first, count, d.currentProgram, d.vertexArray⟩] },
       ⟨0, 0, []⟩)

/-- The run of `main` on the reference device of a fresh context. -/
def deviceRun (tc : Toolchain) : Run Device :=
  runMain (Device.exec tc) Device.fresh

/-- The driver states in which the calls selected by `p` were issued. -/
def statesAt {σ : Type} (p : GLCall → Bool) : List (Event σ) → List σ
  | [] => []
  | .call pre c _ :: t => if p c then pre :: statesAt p t else statesAt p t
  | .print _ _ :: t => statesAt p t

/-- The integers a trace reads through its status queries, in order. -/
def statusReads {σ : Type} : List (Event σ) → List Int
  | [] => []
  | .call _ (.glGetShaderiv _ _) reply :: t => reply.value :: statusReads t
  | .call _ (.glGetProgramiv _ _) reply :: t => reply.value :: statusReads t
  | _ :: t => statusReads t

/-- A toolchain that accepts every stage and links every program holding a
compiled vertex stage and a compiled fragment stage. -/
def acceptingToolchain : Toolchain :=
  ⟨fun _ _ => (true, []),
   fun objs => (objs.any (fun o => o.kind = .GL_VERTEX_SHADER ∧ o.compiled = true) &&
                objs.any (fun o => o.kind = .GL_FRAGMENT_SHADER ∧ o.compiled = true), [])⟩


/-! ## Observations used by the statements -/

/-- Calls that only read device state: the status queries and the log
retrievals. -/
def GLCall.isQuery : GLCall → Bool
  | .glGetShaderiv _ _ => true
  | .glGetShaderInfoLog _ _ => true
  | .glGetProgramiv _ _ => true
  | .glGetProgramInfoLog _ _ => true
  | _ => false

/-- The state-changing calls of a trace, in order of issue. -/
def stateChanging {σ : Type} (t : List (Event σ)) : List GLCall :=
  (calls t).filter (fun c => !c.isQuery)

/-- Calls that upload to a buffer, declare a layout, or draw. -/
def GLCall.isGeometry : GLCall → Bool
  | .glBufferData _ _ _ _ => true
  | .glVertexAttribPointer _ _ _ _ _ _ => true
  | .glDrawArrays _ _ _ => true
  | _ => false

/-- The byte range of the bound buffer that a draw of `count` vertices
starting at vertex `first` addresses through a layout with the given stride
and offset: from `pointer + first * stride` up to, not including,
`pointer + (first + count) * stride`. -/
def drawRange (stride pointer first count : Nat) : Nat × Nat :=
  (pointer + first * stride, pointer + (first + count) * stride)

/-- Calls that retrieve a diagnostic log. -/
def GLCall.isLogRetrieval : GLCall → Bool
  | .glGetShaderInfoLog _ _ => true
  | .glGetProgramInfoLog _ _ => true
  | _ => false

/-- The calls of a trace other than log retrievals, in order of issue. -/
def nonDiagnostic {σ : Type} (t : List (Event σ)) : List GLCall :=
  (calls t).filter (fun c => !c.isLogRetrieval)

/-- The buffer size a log retrieval asks for. -/
def GLCall.logRequest : GLCall → Option Nat
  | .glGetShaderInfoLog _ maxLength => some maxLength
  | .glGetProgramInfoLog _ maxLength => some maxLength
  | _ => none

/-- The event is a log retrieval and `content` is what it left in the
array. -/
def Event.fills {σ : Type} (content : Option (List Char)) : Event σ → Prop
  | .call _ c reply => ∃ n, c.logRequest = some n ∧ content = some (retrieved n reply.text)
  | .print _ _ => False

/-- Every print of the trace comes right after a log retrieval that filled
the array with what is printed; `prev` is the event before the trace. -/
def printsGuarded {σ : Type} : Option (Event σ) → List (Event σ) → Prop
  | _, [] => True
  | prev, .print label content :: t =>
      (∃ e, prev = some e ∧ e.fills content) ∧ printsGuarded (some (.print label content)) t
  | _, .call pre c reply :: t => printsGuarded (some (.call pre c reply)) t

/-- One entry of the diagnostic output: when the status is zero, the label,
the retrieved log and the newline of `std::endl`; nothing otherwise. -/
def entry (status : Int) (label : String) (log : List Char) : List Char :=
  if status = 0 then label.toList ++ retrieved 512 log ++ ['\n'] else []

/-- One entry of the diagnostic output in the words of the specification:
when the status is zero, the label line followed by the retrieved log;
nothing otherwise. -/
def specEntry (status : Int) (label : String) (log : List Char) : List Char :=
  if status = 0 then label.toList ++ retrieved 512 log else []

/-- The event is a step in the life of shader stage `h`: its creation, the
attachment of its source, its compilation, its attachment to a program, its
release. -/
def Event.inLifecycle {σ : Type} (h : Nat) : Event σ → Bool
  | .call _ (.glCreateShader _) reply => reply.name = h
  | .call _ (.glShaderSource shader _ _) _ => shader = h
  | .call _ (.glCompileShader shader) _ => shader = h
  | .call _ (.glAttachShader _ shader) _ => shader = h
  | .call _ (.glDeleteShader shader) _ => shader = h
  | _ => false

/-- The life of shader stage `h` in a trace. -/
def lifecycle {σ : Type} (h : Nat) (t : List (Event σ)) : List GLCall :=
  calls (t.filter (Event.inLifecycle h))

/-- The shader names a call receives. -/
def GLCall.shaders : GLCall → List Nat
  | .glShaderSource shader _ _ => [shader]
  | .glCompileShader shader => [shader]
  | .glGetShaderiv shader _ => [shader]
  | .glGetShaderInfoLog shader _ => [shader]
  | .glAttachShader _ shader => [shader]
  | .glDeleteShader shader => [shader]
  | _ => []

/-- The calls issued after the first release of shader stage `h`. -/
def afterRelease (h : Nat) : List GLCall → List GLCall
  | [] => []
  | c :: cs => if c = .glDeleteShader h then cs else afterRelease h cs

/-- Calls that create a shader stage. -/
def GLCall.isCreateShader : GLCall → Bool
  | .glCreateShader _ => true
  | _ => false

/-- Calls that draw. -/
def GLCall.isDraw : GLCall → Bool
  | .glDrawArrays _ _ _ => true
  | _ => false

/-- Modelled from the spec: what a draw of `count` vertices from vertex `first`
reads for attribute slot 0 on the device.  A draw consumes the layout
declarations of the vertex array object bound at that moment: when that object
holds a declaration for slot 0, the draw reads, from the buffer recorded with
the declaration, the byte range `drawRange` gives; when it holds none, the draw
reads no bytes of any buffer. -/
def Device.drawReads (d : Device) (first count : Nat) : Option (Nat × (Nat × Nat)) :=
  (d.layouts.lookup (d.vertexArray, 0)).map
    (fun l => (l.buffer, drawRange l.stride l.pointer first count))

/-- What each draw of a trace on the reference device reads for slot 0, in
order of issue. -/
def drawReads : List (Event Device) → List (Option (Nat × (Nat × Nat)))
  | [] => []
  | .call pre (.glDrawArrays _ first count) _ :: t => pre.drawReads first count :: drawReads t
  | _ :: t => drawReads t

/-- Calls that act on the buffer bound to the array target: the upload and
the layout declaration. -/
def GLCall.usesArrayBinding : GLCall → Bool
  | .glBufferData _ _ _ _ => true
  | .glVertexAttribPointer _ _ _ _ _ _ => true
  | _ => false

/-- Calls that generate a buffer name, bind a buffer, or act on the buffer
bound to the array target. -/
def GLCall.touchesBuffers : GLCall → Bool
  | .glGenBuffers _ => true
  | .glBindBuffer _ _ => true
  | c => c.usesArrayBinding

/-- Calls that query the link status of a program. -/
def GLCall.isProgramQuery : GLCall → Bool
  | .glGetProgramiv _ _ => true
  | _ => false

/-- The buffer names a trace obtained from `glGenBuffers`, in order. -/
def generatedBuffers {σ : Type} : List (Event σ) → List Nat
  | [] => []
  | .call _ (.glGenBuffers _) reply :: t => reply.name :: generatedBuffers t
  | _ :: t => generatedBuffers t

/-- The host arrays a call receives. -/
def GLCall.arrays : GLCall → List (List GLfloat)
  | .glBufferData _ _ data _ => [data]
  | _ => []

/-- The diagnostic block after a status check on the scripted driver: the log
retrieval and the print when the status is zero, nothing otherwise. -/
def diag (success : Int) (pre : Nat) (c : GLCall) (log : List Char) (label : String) :
    List (Event Nat) :=
  if success = 0 then
    [.call pre c ⟨0, 0, log⟩, .print label (some (retrieved 512 log))]
  else []

/-- The trace of `main` on the scripted driver, written out: four fixed
segments separated by the three diagnostic blocks. -/
def shape (nm : Names) (o : Outcome) : List (Event Nat) :=
  [.call 0 (.glGenBuffers 1) ⟨nm.VBO, 0, []⟩,
   .call 0 (.glBindBuffer .GL_ARRAY_BUFFER nm.VBO) ⟨0, 0, []⟩,
   .call 0 (.glBufferData .GL_ARRAY_BUFFER 36 triangleOneVerticies .GL_STATIC_DRAW) ⟨0, 0, []⟩,
   .call 0 (.glCreateShader .GL_VERTEX_SHADER) ⟨nm.vertexShader, 0, []⟩,
   .call 0 (.glShaderSource nm.vertexShader 1 [vertexShaderSource]) ⟨0, 0, []⟩,
   .call 0 (.glCompileShader nm.vertexShader) ⟨0, 0, []⟩,
   .call 0 (.glGetShaderiv nm.vertexShader .GL_COMPILE_STATUS) ⟨0, o.vertexStatus, []⟩]
  ++ diag o.vertexStatus 1 (.glGetShaderInfoLog nm.vertexShader 512) o.vertexLog vertexLabel ++
  [.call 1 (.glCreateShader .GL_FRAGMENT_SHADER) ⟨nm.fragmentShader, 0, []⟩,
   .call 1 (.glShaderSource nm.fragmentShader 1 [fragmentShaderSource]) ⟨0, 0, []⟩,
   .call 1 (.glCompileShader nm.fragmentShader) ⟨0, 0, []⟩,
   .call 1 (.glGetShaderiv nm.fragmentShader .GL_COMPILE_STATUS) ⟨0, o.fragmentStatus, []⟩]
  ++ diag o.fragmentStatus 2 (.glGetShaderInfoLog nm.fragmentShader 512) o.fragmentLog
       fragmentLabel ++
  [.call 2 .glCreateProgram ⟨nm.shaderProgram, 0, []⟩,
   .call 2 (.glAttachShader nm.shaderProgram nm.vertexShader) ⟨0, 0, []⟩,
   .call 2 (.glAttachShader nm.shaderProgram nm.fragmentShader) ⟨0, 0, []⟩,
   .call 2 (.glGetProgramiv nm.shaderProgram .GL_LINK_STATUS) ⟨0, o.linkStatus, []⟩]
  ++ diag o.linkStatus 2 (.glGetProgramInfoLog nm.shaderProgram 512) o.programLog programLabel ++
  [.call 2 (.glUseProgram nm.shaderProgram) ⟨0, 0, []⟩,
   .call 2 (.glDeleteShader nm.vertexShader) ⟨0, 0, []⟩,
   .call 2 (.glDeleteShader nm.fragmentShader) ⟨0, 0, []⟩,
   .call 2 (.glVertexAttribPointer 0 3 .GL_FLOAT false 12 0) ⟨0, 0, []⟩,
   .call 2 (.glGenVertexArrays 1) ⟨nm.VAO, 0, []⟩,
   .call 2 (.glBindVertexArray nm.VAO) ⟨0, 0, []⟩,
   .call 2 (.glDrawArrays .GL_TRIANGLES 0 3) ⟨0, 0, []⟩]

/-! ## Reading a script off a trace -/

/-- The part of a reply that a call writes through its out-parameter; the
other fields are never read. -/
def Reply.written (r : Reply) : GLCall → Reply
  | .glGenBuffers _ => ⟨r.name, 0, []⟩
  | .glCreateShader _ => ⟨r.name, 0, []⟩
  | .glCreateProgram => ⟨r.name, 0, []⟩
  | .glGenVertexArrays _ => ⟨r.name, 0, []⟩
  | .glGetShaderiv _ _ => ⟨0, r.value, []⟩
  | .glGetProgramiv _ _ => ⟨0, r.value, []⟩
  | .glGetShaderInfoLog _ _ => ⟨0, 0, r.text⟩
  | .glGetProgramInfoLog _ _ => ⟨0, 0, r.text⟩
  | _ => ⟨0, 0, []⟩

/-- An event as seen from outside the driver: the driver state is dropped and
of the reply only the part the call writes is kept. -/
def Event.observe {σ : Type} : Event σ → Event Unit
  | .call _ c reply => .call () c (reply.written c)
  | .print label infoLog => .print label infoLog

/-- The object names a trace obtained, in order. -/
def nameReads {σ : Type} : List (Event σ) → List Nat
  | [] => []
  | .call _ (.glGenBuffers _) reply :: t => reply.name :: nameReads t
  | .call _ (.glCreateShader _) reply :: t => reply.name :: nameReads t
  | .call _ .glCreateProgram reply :: t => reply.name :: nameReads t
  | .call _ (.glGenVertexArrays _) reply :: t => reply.name :: nameReads t
  | _ :: t => nameReads t

/-- The logs a trace was offered by its log retrievals, in order. -/
def logReads {σ : Type} : List (Event σ) → List (List Char)
  | [] => []
  | .call _ (.glGetShaderInfoLog _ _) reply :: t => reply.text :: logReads t
  | .call _ (.glGetProgramInfoLog _ _) reply :: t => reply.text :: logReads t
  | _ :: t => logReads t

/-- The names a trace of `main` was given. -/
def namesOf {σ : Type} (t : List (Event σ)) : Names :=
  ⟨(nameReads t).getD 0 0, (nameReads t).getD 1 0, (nameReads t).getD 2 0,
   (nameReads t).getD 3 0, (nameReads t).getD 4 0⟩

/-- The outcome a trace of `main` met: the three statuses read, and for each
status that is zero the log of the retrieval that follows it. -/
def outcomeOf {σ : Type} (t : List (Event σ)) : Outcome :=
  let v := (statusReads t).getD 0 0
  let f := (statusReads t).getD 1 0
  let l := (statusReads t).getD 2 0
  let iv := 0
  let jf := if v = 0 then 1 else 0
  let kl := jf + (if f = 0 then 1 else 0)
  ⟨v, f, l, (logReads t).getD iv [], (logReads t).getD jf [], (logReads t).getD kl []⟩

/-! ## The trace of `main`, computed once -/

/-- Applying a conditional computation to a state. -/
theorem Exec.ite_run {σ α : Type} (c : Prop) [Decidable c] (m₁ m₂ : Exec σ α) (r : Run σ) :
    (if c then m₁ else m₂) r = if c then m₁ r else m₂ r := by
  split <;> rfl

/-- On the scripted driver the trace of `main` is `shape`. -/
theorem scriptedTrace_eq (nm : Names) (o : Outcome) : scriptedTrace nm o = shape nm o := by
  simp only [scriptedTrace, runMain, main, call, cout, bind, StateT.bind, pure, StateT.pure,
    Exec.ite_run, scripted, shape, diag]
  split_ifs <;> simp [sizeofArray, triangleOneVerticies, sizeofFloat]

/-- The scripted driver is general: whatever a driver answers, the trace of
`main` on it is, as seen from outside the driver, the trace on the scripted
driver for some names and some outcome. -/
theorem scripted_covers_every_driver {σ : Type} (dev : Driver σ) (s : σ) :
    ∃ nm o, (runMain dev s).trace.map Event.observe = (scriptedTrace nm o).map Event.observe := by
  have e1 : sizeofArray triangleOneVerticies = 36 := rfl
  have e2 : 3 * sizeofFloat = 12 := rfl
  refine ⟨namesOf (runMain dev s).trace, outcomeOf (runMain dev s).trace, ?_⟩
  rw [scriptedTrace_eq]
  simp only [runMain, main, call, cout, bind, StateT.bind, pure, StateT.pure, Exec.ite_run,
    List.nil_append, List.cons_append, List.singleton_append, e1, e2]
  split_ifs <;>
  simp only [namesOf, outcomeOf, nameReads, statusReads, logReads, List.getD_cons_zero,
    List.getD_cons_succ, List.getD_nil, shape, diag, *, ↓reduceIte, List.map_cons, List.map_nil,
    List.map_append, List.nil_append, List.cons_append, List.singleton_append, List.append_nil,
    Event.observe, Reply.written, zero_add]

/-- The calls of the scripted trace, written out. -/
theorem calls_scriptedTrace (nm : Names) (o : Outcome) :
    calls (scriptedTrace nm o) =
      [.glGenBuffers 1,
       .glBindBuffer .GL_ARRAY_BUFFER nm.VBO,
       .glBufferData .GL_ARRAY_BUFFER 36 triangleOneVerticies .GL_STATIC_DRAW,
       .glCreateShader .GL_VERTEX_SHADER,
       .glShaderSource nm.vertexShader 1 [vertexShaderSource],
       .glCompileShader nm.vertexShader,
       .glGetShaderiv nm.vertexShader .GL_COMPILE_STATUS]
      ++ (if o.vertexStatus = 0 then [.glGetShaderInfoLog nm.vertexShader 512] else []) ++
      [.glCreateShader .GL_FRAGMENT_SHADER,
       .glShaderSource nm.fragmentShader 1 [fragmentShaderSource],
       .glCompileShader nm.fragmentShader,
       .glGetShaderiv nm.fragmentShader .GL_COMPILE_STATUS]
      ++ (if o.fragmentStatus = 0 then [.glGetShaderInfoLog nm.fragmentShader 512] else []) ++
      [.glCreateProgram,
       .glAttachShader nm.shaderProgram nm.vertexShader,
       .glAttachShader nm.shaderProgram nm.fragmentShader,
       .glGetProgramiv nm.shaderProgram .GL_LINK_STATUS]
      ++ (if o.linkStatus = 0 then [.glGetProgramInfoLog nm.shaderProgram 512] else []) ++
      [.glUseProgram nm.shaderProgram,
       .glDeleteShader nm.vertexShader,
       .glDeleteShader nm.fragmentShader,
       .glVertexAttribPointer 0 3 .GL_FLOAT false 12 0,
       .glGenVertexArrays 1,
       .glBindVertexArray nm.VAO,
       .glDrawArrays .GL_TRIANGLES 0 3] := by
  rw [scriptedTrace_eq]
  simp only [shape, diag, calls]
  split_ifs <;> rfl

/-- The state-changing calls of the scripted trace do not depend on the
outcome. -/
theorem stateChanging_scriptedTrace (nm : Names) (o : Outcome) :
    stateChanging (scriptedTrace nm o) =
      [.glGenBuffers 1,
       .glBindBuffer .GL_ARRAY_BUFFER nm.VBO,
       .glBufferData .GL_ARRAY_BUFFER 36 triangleOneVerticies .GL_STATIC_DRAW,
       .glCreateShader .GL_VERTEX_SHADER,
       .glShaderSource nm.vertexShader 1 [vertexShaderSource],
       .glCompileShader nm.vertexShader,
       .glCreateShader .GL_FRAGMENT_SHADER,
       .glShaderSource nm.fragmentShader 1 [fragmentShaderSource],
       .glCompileShader nm.fragmentShader,
       .glCreateProgram,
       .glAttachShader nm.shaderProgram nm.vertexShader,
       .glAttachShader nm.shaderProgram nm.fragmentShader,
       .glUseProgram nm.shaderProgram,
       .glDeleteShader nm.vertexShader,
       .glDeleteShader nm.fragmentShader,
       .glVertexAttribPointer 0 3 .GL_FLOAT false 12 0,
       .glGenVertexArrays 1,
       .glBindVertexArray nm.VAO,
       .glDrawArrays .GL_TRIANGLES 0 3] := by
  rw [stateChanging, calls_scriptedTrace]
  split_ifs <;> rfl


/-! ## Statements about every outcome of the queries -/

/-- C1 (as the code behaves): whatever the driver answers, `main` issues no
`glLinkProgram` call at all, while it does attach both stages to the program
and does make the program the active one; the program is activated without
ever having been linked. -/
theorem main_activates_unlinked_program (nm : Names) (o : Outcome) :
    (∀ p, GLCall.glLinkProgram p ∉ calls (scriptedTrace nm o)) ∧
    GLCall.glAttachShader nm.shaderProgram nm.vertexShader ∈ calls (scriptedTrace nm o) ∧
    GLCall.glAttachShader nm.shaderProgram nm.fragmentShader ∈ calls (scriptedTrace nm o) ∧
    GLCall.glUseProgram nm.shaderProgram ∈ calls (scriptedTrace nm o) := by
  rw [calls_scriptedTrace]
  refine ⟨?_, ?_, ?_, ?_⟩
  · intro p
    split_ifs <;> simp
  all_goals simp

/-- C5: compile and link failures are not fatal.  For fixed object names and
any two outcomes of the three status queries, `main` issues the same
state-changing calls with the same arguments, and indeed the same calls apart
from log retrievals; and the last call is always the draw. -/
theorem failures_do_not_change_the_pipeline (nm : Names) (o o₂ : Outcome) :
    stateChanging (scriptedTrace nm o) = stateChanging (scriptedTrace nm o₂) ∧
    nonDiagnostic (scriptedTrace nm o) = nonDiagnostic (scriptedTrace nm o₂) ∧
    (calls (scriptedTrace nm o)).getLast? = some (.glDrawArrays .GL_TRIANGLES 0 3) := by
  refine ⟨?_, ?_, ?_⟩
  · rw [stateChanging_scriptedTrace, stateChanging_scriptedTrace]
  · rw [nonDiagnostic, nonDiagnostic, calls_scriptedTrace, calls_scriptedTrace]
    split_ifs <;> rfl
  · rw [calls_scriptedTrace]
    split_ifs <;> rfl

/-- C6 (as stated, refuted): with a failing vertex stage whose log is `bad` and
two successful later checks, the output is the vertex label line, the log and
one more newline, not the label line followed by the log alone. -/
theorem stdout_is_not_label_and_log_only :
    stdout (scriptedTrace ⟨1, 2, 3, 4, 5⟩ ⟨0, 1, 1, ['b', 'a', 'd'], [], []⟩) ≠
      specEntry 0 vertexLabel ['b', 'a', 'd'] ++ specEntry 1 fragmentLabel [] ++
        specEntry 1 programLabel [] := by
  rw [scriptedTrace_eq]
  decide

/-- C6 (amended): for every outcome of the three status queries, the text
`main` writes to standard output is the concatenation, in the order vertex
stage, fragment stage, program, of one entry per query whose status is zero,
each entry being the label line, the retrieved log and a newline; the three
labels are pairwise distinct; and the entry of a query whose status is not
zero is empty. -/
theorem stdout_is_the_failed_entries (nm : Names) (o : Outcome) :
    stdout (scriptedTrace nm o) =
      entry o.vertexStatus vertexLabel o.vertexLog ++
      entry o.fragmentStatus fragmentLabel o.fragmentLog ++
      entry o.linkStatus programLabel o.programLog ∧
    vertexLabel ≠ fragmentLabel ∧ vertexLabel ≠ programLabel ∧ fragmentLabel ≠ programLabel ∧
    (∀ (status : Int) (label : String) (log : List Char), status ≠ 0 → entry status label log = []) := by
  refine ⟨?_, by decide, by decide, by decide, ?_⟩
  · rw [scriptedTrace_eq]
    simp only [shape, diag, entry]
    split_ifs <;> simp [stdout, Event.text]
  · intro status label log h
    simp [entry, h]

/-- C8: each of the two shader stages lives through creation, source
attachment, compilation, attachment to the program and release, in that order
and each exactly once; `main` creates exactly these two stages; and no call
issued after the release of a stage receives its name. -/
theorem stage_lifecycles (nm : Names) (o : Outcome)
    (hne : nm.vertexShader ≠ nm.fragmentShader) :
    (calls (scriptedTrace nm o)).filter GLCall.isCreateShader =
      [.glCreateShader .GL_VERTEX_SHADER, .glCreateShader .GL_FRAGMENT_SHADER] ∧
    lifecycle nm.vertexShader (scriptedTrace nm o) =
      [.glCreateShader .GL_VERTEX_SHADER,
       .glShaderSource nm.vertexShader 1 [vertexShaderSource],
       .glCompileShader nm.vertexShader,
       .glAttachShader nm.shaderProgram nm.vertexShader,
       .glDeleteShader nm.vertexShader] ∧
    lifecycle nm.fragmentShader (scriptedTrace nm o) =
      [.glCreateShader .GL_FRAGMENT_SHADER,
       .glShaderSource nm.fragmentShader 1 [fragmentShaderSource],
       .glCompileShader nm.fragmentShader,
       .glAttachShader nm.shaderProgram nm.fragmentShader,
       .glDeleteShader nm.fragmentShader] ∧
    (∀ c ∈ afterRelease nm.vertexShader (calls (scriptedTrace nm o)),
      nm.vertexShader ∉ c.shaders) ∧
    (∀ c ∈ afterRelease nm.fragmentShader (calls (scriptedTrace nm o)),
      nm.fragmentShader ∉ c.shaders) := by
  have hne2 : nm.fragmentShader ≠ nm.vertexShader := fun h => hne h.symm
  refine ⟨?_, ?_, ?_, ?_, ?_⟩
  · rw [calls_scriptedTrace]
    split_ifs <;> rfl
  · rw [scriptedTrace_eq]
    simp only [shape, diag, lifecycle]
    split_ifs <;> simp [Event.inLifecycle, calls, Event.toCall, hne, hne2]
  · rw [scriptedTrace_eq]
    simp only [shape, diag, lifecycle]
    split_ifs <;> simp [Event.inLifecycle, calls, Event.toCall, hne, hne2]
  · rw [calls_scriptedTrace]
    split_ifs <;> simp [afterRelease, GLCall.shaders, hne, hne2]
  · rw [calls_scriptedTrace]
    split_ifs <;> simp [afterRelease, GLCall.shaders, hne, hne2]

/-- C8, at concrete names: with the stages named 2 and 3 and a failing link
check, both lifecycles are as stated. -/
theorem stage_lifecycles_witness :
    (2 : Nat) ≠ 3 ∧
    lifecycle 2 (scriptedTrace ⟨1, 2, 3, 4, 5⟩ ⟨1, 1, 0, [], [], []⟩) =
      [.glCreateShader .GL_VERTEX_SHADER,
       .glShaderSource 2 1 [vertexShaderSource],
       .glCompileShader 2,
       .glAttachShader 4 2,
       .glDeleteShader 2] ∧
    (∀ c ∈ afterRelease 3 (calls (scriptedTrace ⟨1, 2, 3, 4, 5⟩ ⟨1, 1, 0, [], [], []⟩)),
      3 ∉ c.shaders) :=
  ⟨by decide,
   (stage_lifecycles ⟨1, 2, 3, 4, 5⟩ ⟨1, 1, 0, [], [], []⟩ (by decide)).2.1,
   (stage_lifecycles ⟨1, 2, 3, 4, 5⟩ ⟨1, 1, 0, [], [], []⟩ (by decide)).2.2.2.2⟩

/-- C10: every log retrieval of `main` asks for 512 bytes, the declared size
of `infoLog`; what a retrieval of 512 bytes leaves in the array, terminator
included, fits the array whatever the length of the device log; and every
print of `infoLog` comes right after a retrieval that filled it with what is
printed. -/
theorem info_log_is_bounded_and_fresh (nm : Names) (o : Outcome) :
    (∀ n ∈ (calls (scriptedTrace nm o)).filterMap GLCall.logRequest,
      n = infoLogCapacity ∧ n ≤ 512) ∧
    (∀ log : List Char, (retrieved 512 log).length + 1 ≤ infoLogCapacity) ∧
    printsGuarded none (scriptedTrace nm o) := by
  refine ⟨?_, ?_, ?_⟩
  · rw [calls_scriptedTrace]
    split_ifs <;> simp [GLCall.logRequest, infoLogCapacity]
  · intro log
    simp only [retrieved, infoLogCapacity, List.length_take]
    omega
  · rw [scriptedTrace_eq]
    simp only [shape, diag]
    split_ifs <;> simp [printsGuarded, Event.fills, GLCall.logRequest]

/-! ## Statements about the reference device -/

/-- On the reference device the buffer `main` generates is named 1. -/
theorem generatedBuffers_deviceRun (tc : Toolchain) :
    generatedBuffers (deviceRun tc).trace = [1] := by
  simp only [deviceRun, runMain, main, call, cout, bind, StateT.bind, pure, StateT.pure,
    Exec.ite_run, Device.exec, Device.fresh, List.lookup, Nat.reduceAdd, Nat.reduceBEq,
    Nat.reduceBNe, ↓reduceIte, List.take, beq_self_eq_true, and_self, and_true, true_and, ne_eq,
    not_false_eq_true, OfNat.ofNat_ne_zero, reduceCtorEq, List.nil_append, List.cons_append,
    List.singleton_append]
  split_ifs <;> simp only [generatedBuffers]

/-- The two triangles differ. -/
theorem triangles_differ : ¬ triangeTwoVerticies = triangleOneVerticies := by
  unfold triangleOneVerticies triangeTwoVerticies
  norm_num

/-- C2 (as the code behaves): on the reference device, whatever the toolchain
reports, the draw is issued with vertex array object 5 bound, and that object
holds no layout declaration for slot 0; the one declaration `main` makes is
recorded under vertex array name 0, the binding in force when
`glVertexAttribPointer` was called, together with buffer 1. -/
theorem draw_finds_no_layout (tc : Toolchain) :
    (statesAt GLCall.isDraw (deviceRun tc).trace).map
        (fun d => (d.vertexArray, d.layouts.lookup (d.vertexArray, 0))) = [(5, none)] ∧
    (deviceRun tc).device.layouts = [((0, 0), ⟨3, .GL_FLOAT, false, 12, 0, 1⟩)] := by
  simp only [deviceRun, runMain, main, call, cout, bind, StateT.bind, pure, StateT.pure,
    Exec.ite_run, Device.exec, Device.fresh, List.lookup, Nat.reduceAdd, Nat.reduceBEq,
    Nat.reduceBNe, ↓reduceIte, List.take, beq_self_eq_true, and_self, and_true, true_and, ne_eq,
    not_false_eq_true, OfNat.ofNat_ne_zero, reduceCtorEq, List.nil_append, List.cons_append,
    List.singleton_append]
  split_ifs <;>
  simp only [statesAt, GLCall.isDraw, ↓reduceIte, List.map_cons, List.map_nil, List.lookup,
    sizeofFloat, Nat.reduceMul, and_self, Bool.false_eq_true] <;>
  decide

/-- C9 (as the code behaves): the constants are consistent, but the draw does
not consume the uploaded buffer.  Whatever the driver answers, the only upload,
layout and draw calls of `main` are an upload of 36 bytes, a layout of 3 floats
with stride 12 and offset 0, and a draw of 3 vertices from vertex 0; the stride
is 3 times the size of a float and the byte range these constants give is from
0 to 36, the size of the uploaded array.  On the reference device that layout
is recorded, with buffer 1 of 36 bytes, under vertex array name 0, where it
would give the draw the range from 0 to 36 of buffer 1; the draw itself, issued
with vertex array object 5 bound, reads no bytes at all. -/
theorem draw_reads_nothing_of_the_upload (tc : Toolchain) (nm : Names) (o : Outcome) :
    (calls (scriptedTrace nm o)).filter GLCall.isGeometry =
      [.glBufferData .GL_ARRAY_BUFFER 36 triangleOneVerticies .GL_STATIC_DRAW,
       .glVertexAttribPointer 0 3 .GL_FLOAT false 12 0,
       .glDrawArrays .GL_TRIANGLES 0 3] ∧
    12 = 3 * sizeofFloat ∧
    drawRange 12 0 0 3 = (0, 36) ∧
    sizeofArray triangleOneVerticies = 36 ∧
    (statesAt GLCall.isDraw (deviceRun tc).trace).map
        (fun d => ((d.layouts.lookup (0, 0)).map
            (fun l => (l.buffer, drawRange l.stride l.pointer 0 3)),
          (d.buffers.lookup 1).map BufferObject.size)) = [(some (1, (0, 36)), some 36)] ∧
    drawReads (deviceRun tc).trace = [none] := by
  refine ⟨?_, rfl, rfl, rfl, ?_⟩
  · rw [calls_scriptedTrace]
    split_ifs <;> rfl
  · simp only [deviceRun, runMain, main, call, cout, bind, StateT.bind, pure, StateT.pure,
      Exec.ite_run, Device.exec, Device.fresh, List.lookup, Nat.reduceAdd, Nat.reduceBEq,
      Nat.reduceBNe, ↓reduceIte, List.take, beq_self_eq_true, and_self, and_true, true_and, ne_eq,
      not_false_eq_true, OfNat.ofNat_ne_zero, reduceCtorEq, List.nil_append, List.cons_append,
      List.singleton_append]
    split_ifs <;>
    simp only [statesAt, drawReads, Device.drawReads, GLCall.isDraw, ↓reduceIte, List.map_cons,
      List.map_nil, List.lookup, Option.map_some', Option.map_none', beq_self_eq_true,
      sizeofArray, triangleOneVerticies, sizeofFloat, List.length_cons, List.length_nil,
      Nat.reduceAdd, Nat.reduceMul, Bool.false_eq_true] <;>
    decide

/-- Had the layout been declared with the vertex array object bound: on the
reference device, a `glVertexAttribPointer` call with the constants of `main`,
issued in the state in which `main` draws, makes the draw read the byte range
from 0 to 36 of buffer 1, the whole upload. -/
theorem draw_would_have_read_the_upload (tc : Toolchain) :
    (statesAt GLCall.isDraw (deviceRun tc).trace).map
        (fun d => ((Device.exec tc d (.glVertexAttribPointer 0 3 .GL_FLOAT false 12 0)).1.drawReads
          0 3, (d.buffers.lookup 1).map BufferObject.size)) =
      [(some (1, (0, 36)), some 36)] := by
  simp only [deviceRun, runMain, main, call, cout, bind, StateT.bind, pure, StateT.pure,
    Exec.ite_run, Device.exec, Device.fresh, List.lookup, Nat.reduceAdd, Nat.reduceBEq,
    Nat.reduceBNe, ↓reduceIte, List.take, beq_self_eq_true, and_self, and_true, true_and, ne_eq,
    not_false_eq_true, OfNat.ofNat_ne_zero, reduceCtorEq, List.nil_append, List.cons_append,
    List.singleton_append]
  split_ifs <;>
  simp only [statesAt, Device.drawReads, Device.exec, GLCall.isDraw, ↓reduceIte, List.map_cons,
    List.map_nil, List.lookup, Option.map_some', Option.map_none', beq_self_eq_true,
    sizeofArray, triangleOneVerticies, sizeofFloat, List.length_cons, List.length_nil,
    Nat.reduceAdd, Nat.reduceMul, Bool.false_eq_true] <;>
  decide

/-- C3: bind-before-describe holds in `main`.  On the reference device the
buffer name generated is 1; the calls that generate, bind or act on the array
target are, in order, the generation, one bind of that name, the upload and
the layout declaration; and in the device states in which the upload and the
layout declaration are issued the buffer bound to the array target is that
name, which is not 0. -/
theorem bind_before_describe (tc : Toolchain) :
    generatedBuffers (deviceRun tc).trace = [1] ∧
    (calls (deviceRun tc).trace).filter GLCall.touchesBuffers =
      [.glGenBuffers 1,
       .glBindBuffer .GL_ARRAY_BUFFER 1,
       .glBufferData .GL_ARRAY_BUFFER 36 triangleOneVerticies .GL_STATIC_DRAW,
       .glVertexAttribPointer 0 3 .GL_FLOAT false 12 0] ∧
    (statesAt GLCall.usesArrayBinding (deviceRun tc).trace).map Device.arrayBuffer = [1, 1] := by
  refine ⟨generatedBuffers_deviceRun tc, ?_⟩
  simp only [deviceRun, runMain, main, call, cout, bind, StateT.bind, pure, StateT.pure,
    Exec.ite_run, Device.exec, Device.fresh, List.lookup, Nat.reduceAdd, Nat.reduceBEq,
    Nat.reduceBNe, ↓reduceIte, List.take, beq_self_eq_true, and_self, and_true, true_and, ne_eq,
    not_false_eq_true, OfNat.ofNat_ne_zero, reduceCtorEq, List.nil_append, List.cons_append,
    List.singleton_append]
  split_ifs <;>
  simp only [calls, List.filterMap_cons, List.filterMap_nil, Event.toCall,
    List.filter_cons, List.filter_nil, GLCall.touchesBuffers, GLCall.usesArrayBinding, statesAt,
    ↓reduceIte, List.map_cons, List.map_nil, sizeofArray, triangleOneVerticies, sizeofFloat,
    List.length_cons, List.length_nil, Nat.reduceAdd, Nat.reduceMul, and_self,
    Bool.false_eq_true]

/-- C4: after the upload the buffer holds the first triangle.  On the
reference device, in every device state from the end of the upload on (the
states of all later calls and the final state), buffer 1, the one generated,
holds 36 bytes that are the nine floats of the first triangle in order; and,
whatever the driver answers, no call of `main` receives the second triangle's
array. -/
theorem upload_copies_first_triangle (tc : Toolchain) (nm : Names) (o : Outcome) :
    (∀ d ∈ (statesAt (fun _ => true) (deviceRun tc).trace).drop 3 ++ [(deviceRun tc).device],
      d.buffers.lookup 1 =
        some ⟨36, [-0.5, 0, 0, 0.5, 0, 0, 0, 0.5, 0], .GL_STATIC_DRAW⟩) ∧
    generatedBuffers (deviceRun tc).trace = [1] ∧
    (∀ c ∈ calls (scriptedTrace nm o), triangeTwoVerticies ∉ c.arrays) ∧
    triangleOneVerticies.length = 9 ∧ sizeofArray triangleOneVerticies = 36 := by
  refine ⟨?_, generatedBuffers_deviceRun tc, ?_, rfl, rfl⟩
  · simp only [deviceRun, runMain, main, call, cout, bind, StateT.bind, pure, StateT.pure,
      Exec.ite_run, Device.exec, Device.fresh, List.lookup, Nat.reduceAdd, Nat.reduceBEq,
      Nat.reduceBNe, ↓reduceIte, List.take, beq_self_eq_true, and_self, and_true, true_and, ne_eq,
      not_false_eq_true, OfNat.ofNat_ne_zero, reduceCtorEq, List.nil_append, List.cons_append,
      List.singleton_append]
    split_ifs <;>
    simp only [statesAt, ↓reduceIte, List.drop_succ_cons, List.drop_zero, List.cons_append,
      List.nil_append, List.mem_cons, List.mem_singleton, List.not_mem_nil, or_false,
      forall_eq_or_imp, forall_eq, List.lookup, beq_self_eq_true, sizeofArray,
      triangleOneVerticies, sizeofFloat, List.length_cons, List.length_nil, Nat.reduceAdd,
      Nat.reduceMul, and_self] <;>
    norm_num
  · rw [calls_scriptedTrace]
    split_ifs <;>
    simp only [List.cons_append, List.nil_append, List.append_nil, List.mem_cons,
      List.mem_singleton, List.not_mem_nil, or_false, forall_eq_or_imp, forall_eq,
      GLCall.arrays, not_false_eq_true, and_self, triangles_differ]

/-- C7 (as the code behaves): on the reference device, with a toolchain that
compiles both fixed sources successfully and whose linker succeeds on every
program holding a compiled vertex stage and a compiled fragment stage, `main`
reads 1, 1 and then 0 through its three status queries: the link status is
false, because the program was never linked.  The output is the program
label, an empty log and a newline, and at the end the program holds both
stages and is not linked. -/
theorem link_status_read_is_false (tc : Toolchain)
    (hv : (tc.compile .GL_VERTEX_SHADER [vertexShaderSource]).1 = true)
    (hf : (tc.compile .GL_FRAGMENT_SHADER [fragmentShaderSource]).1 = true)
    (_hl : ∀ objs : List ShaderObject,
      (∃ v ∈ objs, v.kind = .GL_VERTEX_SHADER ∧ v.compiled = true) →
      (∃ f ∈ objs, f.kind = .GL_FRAGMENT_SHADER ∧ f.compiled = true) →
      (tc.link objs).1 = true) :
    statusReads (deviceRun tc).trace = [1, 1, 0] ∧
    stdout (deviceRun tc).trace = programLabel.toList ++ [] ++ ['\n'] ∧
    (deviceRun tc).device.programs.lookup 4 = some ⟨[2, 3], false, []⟩ := by
  simp only [deviceRun, runMain, main, call, cout, bind, StateT.bind, pure, StateT.pure,
    Exec.ite_run, Device.exec, Device.fresh, List.lookup, Nat.reduceAdd, Nat.reduceBEq,
    Nat.reduceBNe, ↓reduceIte, List.take, beq_self_eq_true, and_self, and_true, true_and, ne_eq,
    not_false_eq_true, OfNat.ofNat_ne_zero, reduceCtorEq, List.nil_append, List.cons_append,
    List.singleton_append, hv, hf, one_ne_zero, Bool.false_eq_true]
  simp only [statusReads, stdout, Event.text, retrieved, List.take_nil, Option.getD_some,
    List.nil_append, List.append_nil, and_self]

/-- C7, at a concrete toolchain: the accepting toolchain meets the three
assumptions, and `main` reads link status 0 on it. -/
theorem link_status_read_is_false_witness :
    (acceptingToolchain.compile .GL_VERTEX_SHADER [vertexShaderSource]).1 = true ∧
    statusReads (deviceRun acceptingToolchain).trace = [1, 1, 0] :=
  ⟨rfl,
   (link_status_read_is_false acceptingToolchain rfl rfl (by
      intro objs hvx hfx
      obtain ⟨v, hvm, hvk, hvc⟩ := hvx
      obtain ⟨f, hfm, hfk, hfc⟩ := hfx
      simp only [acceptingToolchain, Bool.and_eq_true, List.any_eq_true, decide_eq_true_eq]
      exact ⟨⟨v, hvm, hvk, hvc⟩, ⟨f, hfm, hfk, hfc⟩⟩)).1⟩

/-- Had the program been linked: on the reference device, under the same
assumptions on the toolchain, a `glLinkProgram` call issued in the state in
which `main` queries the link status makes that query report 1. -/
theorem link_would_have_succeeded (tc : Toolchain)
    (hv : (tc.compile .GL_VERTEX_SHADER [vertexShaderSource]).1 = true)
    (hf : (tc.compile .GL_FRAGMENT_SHADER [fragmentShaderSource]).1 = true)
    (hl : ∀ objs : List ShaderObject,
      (∃ v ∈ objs, v.kind = .GL_VERTEX_SHADER ∧ v.compiled = true) →
      (∃ f ∈ objs, f.kind = .GL_FRAGMENT_SHADER ∧ f.compiled = true) →
      (tc.link objs).1 = true) :
    (statesAt GLCall.isProgramQuery (deviceRun tc).trace).map
        (fun d => (Device.exec tc (Device.exec tc d (.glLinkProgram 4)).1
          (.glGetProgramiv 4 .GL_LINK_STATUS)).2.value) = [1] := by
  simp only [deviceRun, runMain, main, call, cout, bind, StateT.bind, pure, StateT.pure,
    Exec.ite_run, Device.exec, Device.fresh, List.lookup, Nat.reduceAdd, Nat.reduceBEq,
    Nat.reduceBNe, ↓reduceIte, List.take, beq_self_eq_true, and_self, and_true, true_and, ne_eq,
    not_false_eq_true, OfNat.ofNat_ne_zero, reduceCtorEq, List.nil_append, List.cons_append,
    List.singleton_append, hv, hf, one_ne_zero, Bool.false_eq_true]
  simp only [statesAt, GLCall.isProgramQuery, ↓reduceIte, Bool.false_eq_true, List.map_cons,
    List.map_nil, Device.exec, List.lookup, beq_self_eq_true, List.filterMap_cons,
    List.filterMap_nil, Nat.reduceBEq, List.nil_append, List.cons_append, hv, hf, true_and]
  rw [hl]
  · rfl
  · exact ⟨_, List.mem_cons_self _ _, rfl, rfl⟩
  · exact ⟨_, List.mem_cons_of_mem _ (List.mem_cons_self _ _), rfl, rfl⟩

end LearnOpenGl
